import Mathlib

/-!
Shallow embedding of `src/apex-windows/src/music.rs` (the apex-tux Windows
media-player backend) and proofs about its spec claims.

The native Windows `GlobalSystemMediaTransportControlsSession*` API is
modelled as records holding the result each native call would return in a
fixed OS state; asynchronous calls are embedded as their eventual results.
`anyhow::Result` is embedded as `Except Err`; `windows::core::Result` as
`Except WinErr`.  Machine integers: the native `TimeSpan.Duration` field is
an `i64`, embedded as `Int`; the Rust `as u64` cast is `% 2^64` into `Nat`.
-/

set_option autoImplicit false

namespace ApexWindows

/-- Native `windows::core::Error`, abstracted to an error code: the Rust
code never inspects it beyond formatting it into a message. -/
structure WinErr where
  code : Int
deriving DecidableEq, Repr

/-- The `anyhow::Error` values this module produces, one constructor per
`anyhow!` call site plus the implicit `From` conversion used by `?` on a
native result (message formatting is abstracted away). -/
inductive Err where
  /-- produced by the bare message `anyhow!("Windows")` -/
  | windows : Err
  /-- produced by the message formatted from `Couldn't get current session` -/
  | couldNotGetCurrentSession : WinErr → Err
  /-- produced by the message formatted from `Couldn't get media properties` -/
  | couldNotGetMediaProperties : WinErr → Err
  /-- a native error propagated by `?` via the `From` conversion -/
  | fromWin : WinErr → Err
deriving DecidableEq, Repr

/-- Rust `Result::map_err`. -/
def mapErr {e1 e2 a : Type} (f : e1 → e2) : Except e1 a → Except e2 a
  | .ok x => .ok x
  | .error err => .error (f err)

/-- Native `Windows.Foundation.TimeSpan`: `Duration` is an `i64` count of
100-nanosecond ticks. -/
structure TimeSpan where
  Duration : Int
deriving DecidableEq, Repr

/-- Results of the native calls made on a session's timeline properties. -/
structure TimelineProperties where
  EndTime : Except WinErr TimeSpan
  Position : Except WinErr TimeSpan
deriving Repr

/-- Native playback-status enum: a transparent wrapper around an `i32`,
with the named constants the Rust `match` tests against. -/
structure GlobalSystemMediaTransportControlsSessionPlaybackStatus where
  value : Int
deriving DecidableEq, Repr

namespace GlobalSystemMediaTransportControlsSessionPlaybackStatus

/-- Native constant `Playing` (4). -/
def Playing : GlobalSystemMediaTransportControlsSessionPlaybackStatus := ⟨4⟩

/-- Native constant `Paused` (5). -/
def Paused : GlobalSystemMediaTransportControlsSessionPlaybackStatus := ⟨5⟩

end GlobalSystemMediaTransportControlsSessionPlaybackStatus

/-- Results of the native calls made on a session's playback info. -/
structure GlobalSystemMediaTransportControlsSessionPlaybackInfo where
  PlaybackStatus : Except WinErr GlobalSystemMediaTransportControlsSessionPlaybackStatus
deriving Repr

/-- Results of the native calls made on a session's media properties.
`Title` and `Artist` native results are `HSTRING`s; the embedding stores
the string a lossy UTF-16 decode of them yields, since the Rust code
immediately applies `to_string_lossy`. -/
structure GlobalSystemMediaTransportControlsSessionMediaProperties where
  Title : Except WinErr String
  Artist : Except WinErr String
deriving Repr

/-- A native media session, as the fixed OS state this module observes:
each field is the result the corresponding native call returns.
`TryGetMediaPropertiesAsync` has two failure points in the Rust code
(starting the async operation, and awaiting it), hence the nested
`Except`. -/
structure GlobalSystemMediaTransportControlsSession where
  GetTimelineProperties : Except WinErr TimelineProperties
  GetPlaybackInfo : Except WinErr GlobalSystemMediaTransportControlsSessionPlaybackInfo
  TryGetMediaPropertiesAsync :
    Except WinErr (Except WinErr GlobalSystemMediaTransportControlsSessionMediaProperties)
  SourceAppUserModelId : Except WinErr String
deriving Repr

/-- The native session manager: `GetCurrentSession` fails when no media
session is current. -/
structure GlobalSystemMediaTransportControlsSessionManager where
  GetCurrentSession : Except WinErr GlobalSystemMediaTransportControlsSession
deriving Repr

/-- The `Metadata` value type defined in `music.rs` (`derive(Default)`). -/
structure Metadata where
  title : String
  artists : String
  length : Nat
deriving DecidableEq, Repr

/-- Rust `Metadata::default()`: all fields take their `Default` values. -/
def Metadata.default : Metadata :=
  { title := "", artists := "", length := 0 }

/-- The `title` accessor of the `Metadata` trait impl: `Ok(self.title.clone())`. -/
def Metadata.titleR (m : Metadata) : Except Err String :=
  .ok m.title

/-- The `artists` accessor of the `Metadata` trait impl: `Ok(self.artists.clone())`. -/
def Metadata.artistsR (m : Metadata) : Except Err String :=
  .ok m.artists

/-- The `length` accessor of the `Metadata` trait impl: `Ok(self.length)`. -/
def Metadata.lengthR (m : Metadata) : Except Err Nat :=
  .ok m.length

/-- Modelled from the spec: `PlaybackStatus` lives in the external
`apex_music` crate (not under `src/`); the spec fixes it as the three-state
enum Playing, Paused, Stopped. -/
inductive PlaybackStatus where
  | Playing : PlaybackStatus
  | Paused : PlaybackStatus
  | Stopped : PlaybackStatus
deriving DecidableEq, Repr

/-- Modelled from the spec: `Progress` lives in the external `apex_music`
crate (not under `src/`); the spec fixes it as the snapshot bundle
of metadata, signed position and status, matching the field names the
Rust `progress()` constructor uses. -/
structure Progress where
  metadata : Metadata
  position : Int
  status : PlaybackStatus
deriving DecidableEq, Repr

/-- Modelled from the spec: `PlayerEvent` lives in the external
`apex_music` crate (not under `src/`); the spec fixes it as a tag-only
notification with the single variant `Timer`. -/
inductive PlayerEvent where
  | Timer : PlayerEvent
deriving DecidableEq, Repr

/-- The `Player` struct of `music.rs`: holds the session manager. -/
structure Player where
  session_manager : GlobalSystemMediaTransportControlsSessionManager

/-- Rust `i64 as u64`: two's-complement reinterpretation, i.e. the value
modulo `2^64`. -/
def i64_as_u64 (d : Int) : Nat :=
  (d % (2 : Int) ^ 64).toNat

namespace Player

/-- `Player::current_session`: `GetCurrentSession` with its error mapped
by `anyhow!("Couldn't get current session: {}", e)`. -/
def current_session (p : Player) :
    Except Err GlobalSystemMediaTransportControlsSession :=
  mapErr Err.couldNotGetCurrentSession p.session_manager.GetCurrentSession

/-- `Player::media_properties`: resolves the current session with `?`,
starts `TryGetMediaPropertiesAsync` (error mapped to the
media-properties message), then awaits it (`?` on the native error). -/
def media_properties (p : Player) :
    Except Err GlobalSystemMediaTransportControlsSessionMediaProperties := do
  let session ← p.current_session
  let x ← mapErr Err.couldNotGetMediaProperties session.TryGetMediaPropertiesAsync
  let x ← mapErr Err.fromWin x
  pure x

/-- `Player::metadata` (the `AsyncPlayer` impl): length comes from the
timeline `EndTime` cast with `as u64` when a session resolves, else `0`;
then media properties are fetched (re-resolving the session inside
`media_properties`), and title and artist are lossily decoded. -/
def metadata (p : Player) : Except Err Metadata := do
  let length ← match p.current_session with
    | .ok session => do
        let timeline ← mapErr (fun _ => Err.windows) session.GetTimelineProperties
        let timespan ← mapErr (fun _ => Err.windows) timeline.EndTime
        pure (i64_as_u64 timespan.Duration)
    | .error _ => pure 0
  let props ← p.media_properties
  let title ← mapErr Err.fromWin props.Title
  let artists ← mapErr Err.fromWin props.Artist
  pure { title := title, artists := artists, length := length }

/-- `Player::playback_status` (the `AsyncPlayer` impl): absence of a
session returns `Ok(Stopped)`; otherwise the native status is fetched and
matched against the native `Playing` and `Paused` constants with a
catch-all to `Stopped`. -/
def playback_status (p : Player) : Except Err PlaybackStatus :=
  match p.current_session with
  | .error _ => .ok PlaybackStatus.Stopped
  | .ok session => do
      let playback ← mapErr (fun _ => Err.windows) session.GetPlaybackInfo
      let status ← mapErr (fun _ => Err.windows) playback.PlaybackStatus
      pure
        (if status = GlobalSystemMediaTransportControlsSessionPlaybackStatus.Playing then
          PlaybackStatus.Playing
        else if status = GlobalSystemMediaTransportControlsSessionPlaybackStatus.Paused then
          PlaybackStatus.Paused
        else
          PlaybackStatus.Stopped)

/-- `Player::name` (the `AsyncPlayer` impl): returns the session's
`SourceAppUserModelId` as a string, falling back to the literal
`windows-api` both when no session resolves and when the id read fails. -/
def name (p : Player) : String :=
  match p.current_session with
  | .error _ => "windows-api"
  | .ok session =>
      match session.SourceAppUserModelId with
      | .error _ => "windows-api"
      | .ok n => n

/-- `Player::position` (the `AsyncPlayer` impl): absence of a session
returns `Ok(0)`; otherwise the timeline `Position` duration is returned
verbatim as a signed integer. -/
def position (p : Player) : Except Err Int :=
  match p.current_session with
  | .error _ => .ok 0
  | .ok session => do
      let timeline ← mapErr (fun _ => Err.windows) session.GetTimelineProperties
      let pos ← mapErr (fun _ => Err.windows) timeline.Position
      pure pos.Duration

/-- `Player::progress`: builds the `Progress` bundle, evaluating the three
sub-calls in struct-literal order (metadata, position, status), each with
`?`. -/
def progress (p : Player) : Except Err Progress := do
  let m ← p.metadata
  let pos ← p.position
  let s ← p.playback_status
  pure { metadata := m, position := pos, status := s }

/-- `Player::stream`: the body loops forever, awaiting a 100 ms interval
tick and yielding `PlayerEvent::Timer` each iteration.  Real time is not
embedded; the stream is modelled by the sequence of values it yields, and
`stream` returns it wrapped in `Ok` exactly as the Rust code wraps the
`stream!` block. -/
def streamItems (_p : Player) : Nat → PlayerEvent :=
  fun _ => PlayerEvent.Timer

/-- `Player::stream` returns `Ok` of the yielded-value sequence. -/
def stream (p : Player) : Except Err (Nat → PlayerEvent) :=
  .ok p.streamItems

end Player

/-! Concrete OS states used to witness the theorems below. -/

/-- A sample native error. -/
def sampleWinErr : WinErr := ⟨1⟩

/-- Media properties whose native calls all succeed. -/
def sampleMediaProps : GlobalSystemMediaTransportControlsSessionMediaProperties :=
  { Title := .ok "Song", Artist := .ok "Artist" }

/-- Timeline with end time 300 ticks and position 42 ticks. -/
def sampleTimeline : TimelineProperties :=
  { EndTime := .ok ⟨300⟩, Position := .ok ⟨42⟩ }

/-- A fully healthy session whose native status is `Playing` (4). -/
def sampleSession : GlobalSystemMediaTransportControlsSession :=
  { GetTimelineProperties := .ok sampleTimeline
    GetPlaybackInfo := .ok { PlaybackStatus := .ok ⟨4⟩ }
    TryGetMediaPropertiesAsync := .ok (.ok sampleMediaProps)
    SourceAppUserModelId := .ok "Spotify.exe" }

/-- A player whose manager reports no current session. -/
def noSessionPlayer : Player :=
  { session_manager := { GetCurrentSession := .error sampleWinErr } }

/-- A player whose manager resolves the given session. -/
def playerWith (s : GlobalSystemMediaTransportControlsSession) : Player :=
  { session_manager := { GetCurrentSession := .ok s } }

/-- The healthy player. -/
def samplePlayer : Player := playerWith sampleSession

/-- A session whose `GetPlaybackInfo` native call fails. -/
def badPlaybackInfoSession : GlobalSystemMediaTransportControlsSession :=
  { sampleSession with GetPlaybackInfo := .error sampleWinErr }

/-- A session whose `GetTimelineProperties` native call fails. -/
def badTimelineSession : GlobalSystemMediaTransportControlsSession :=
  { sampleSession with GetTimelineProperties := .error sampleWinErr }

/-- A session whose `TryGetMediaPropertiesAsync` native call fails. -/
def badMediaPropsSession : GlobalSystemMediaTransportControlsSession :=
  { sampleSession with TryGetMediaPropertiesAsync := .error sampleWinErr }

/-- A session whose timeline `Position` read fails but whose `EndTime`
read succeeds. -/
def badPositionSession : GlobalSystemMediaTransportControlsSession :=
  { sampleSession with
      GetTimelineProperties := .ok { EndTime := .ok ⟨300⟩, Position := .error sampleWinErr } }

/-- A session whose native status is `Paused` (5). -/
def pausedSession : GlobalSystemMediaTransportControlsSession :=
  { sampleSession with GetPlaybackInfo := .ok { PlaybackStatus := .ok ⟨5⟩ } }

/-- A session whose native status is the unrelated value `Changing` (2). -/
def changingSession : GlobalSystemMediaTransportControlsSession :=
  { sampleSession with GetPlaybackInfo := .ok { PlaybackStatus := .ok ⟨2⟩ } }

/-- A session whose `SourceAppUserModelId` read fails. -/
def noAppIdSession : GlobalSystemMediaTransportControlsSession :=
  { sampleSession with SourceAppUserModelId := .error sampleWinErr }

/-- A session whose timeline `EndTime` duration is the negative tick count
`-1`. -/
def negativeEndTimeSession : GlobalSystemMediaTransportControlsSession :=
  { sampleSession with
      GetTimelineProperties := .ok { EndTime := .ok ⟨-1⟩, Position := .ok ⟨42⟩ } }


/-- A session whose `GetPlaybackInfo` succeeds but whose `PlaybackStatus`
read fails. -/
def badStatusSession : GlobalSystemMediaTransportControlsSession :=
  { sampleSession with GetPlaybackInfo := .ok { PlaybackStatus := .error sampleWinErr } }

/-- A session reporting the out-of-range position `-7` with end time 300. -/
def weirdPositionSession : GlobalSystemMediaTransportControlsSession :=
  { sampleSession with
      GetTimelineProperties := .ok { EndTime := .ok ⟨300⟩, Position := .ok ⟨-7⟩ } }

/-! Helper simp lemmas for reducing the `Except` plumbing. -/

@[simp]
theorem mapErr_ok {e1 e2 a : Type} (f : e1 → e2) (x : a) :
    mapErr f (Except.ok x) = Except.ok x := rfl

@[simp]
theorem mapErr_error {e1 e2 a : Type} (f : e1 → e2) (err : e1) :
    mapErr f (Except.error err : Except e1 a) = Except.error (f err) := rfl

@[simp]
theorem except_bind_ok {e a b : Type} (x : a) (f : a → Except e b) :
    (Except.ok x >>= f : Except e b) = f x := rfl

@[simp]
theorem except_bind_error {e a b : Type} (err : e) (f : a → Except e b) :
    (Except.error err >>= f : Except e b) = Except.error err := rfl

@[simp]
theorem except_pure {e a : Type} (x : a) :
    (pure x : Except e a) = Except.ok x := rfl

/-! Claim theorems. -/

/-- Claim C1, counterexample: with no current session, `metadata()` does
NOT succeed with a defaulted result — `media_properties()` re-resolves the
session, fails, and the `NoCurrentSession` condition is propagated to the
caller as a hard error. -/
theorem metadata_no_session_counterexample :
    Player.metadata noSessionPlayer
      = Except.error (Err.couldNotGetCurrentSession sampleWinErr) := rfl

/-- Claim C1 (amended): when no current session exists, the length
computation inside `metadata()` defaults to 0 and the call still proceeds
to `media_properties()`, but `media_properties()` re-resolves the current
session itself and fails, so `metadata()` propagates the
`NoCurrentSession` condition to the caller as an error rather than
succeeding with a default. -/
theorem metadata_no_session_propagates (p : Player) (e : WinErr)
    (h : p.session_manager.GetCurrentSession = Except.error e) :
    p.media_properties = Except.error (Err.couldNotGetCurrentSession e) ∧
      p.metadata = Except.error (Err.couldNotGetCurrentSession e) := by
  constructor
  · simp [Player.media_properties, Player.current_session, h]
  · simp [Player.metadata, Player.media_properties, Player.current_session, h]

/-- Claim C1, witness: the amended behavior at a concrete no-session
player. -/
theorem metadata_no_session_propagates_witness :
    Player.media_properties noSessionPlayer
        = Except.error (Err.couldNotGetCurrentSession sampleWinErr) ∧
      Player.metadata noSessionPlayer
        = Except.error (Err.couldNotGetCurrentSession sampleWinErr) :=
  metadata_no_session_propagates noSessionPlayer sampleWinErr rfl

/-- Claim C2, counterexample: with a session present whose native
`GetPlaybackInfo` call fails, `playback_status()` returns an error to the
caller, so it is not error-free for every underlying OS state. -/
theorem playback_status_failure_counterexample :
    Player.playback_status (playerWith badPlaybackInfoSession)
      = Except.error Err.windows := rfl

/-- Claim C2 (amended): `playback_status()` absorbs only session-absence
errors (returning `Ok(Stopped)`); when a session is present, a failing
native `GetPlaybackInfo` or `PlaybackStatus` call surfaces as an error,
and when both native calls succeed the result is always one of `Playing`,
`Paused`, or `Stopped`. -/
theorem playback_status_error_behavior (p : Player)
    (s : GlobalSystemMediaTransportControlsSession)
    (pb : GlobalSystemMediaTransportControlsSessionPlaybackInfo)
    (st : GlobalSystemMediaTransportControlsSessionPlaybackStatus) (e : WinErr) :
    (p.session_manager.GetCurrentSession = Except.error e →
      p.playback_status = Except.ok PlaybackStatus.Stopped) ∧
    (p.session_manager.GetCurrentSession = Except.ok s →
      s.GetPlaybackInfo = Except.error e →
      p.playback_status = Except.error Err.windows) ∧
    (p.session_manager.GetCurrentSession = Except.ok s →
      s.GetPlaybackInfo = Except.ok pb → pb.PlaybackStatus = Except.error e →
      p.playback_status = Except.error Err.windows) ∧
    (p.session_manager.GetCurrentSession = Except.ok s →
      s.GetPlaybackInfo = Except.ok pb → pb.PlaybackStatus = Except.ok st →
      (p.playback_status = Except.ok PlaybackStatus.Playing ∨
       p.playback_status = Except.ok PlaybackStatus.Paused ∨
       p.playback_status = Except.ok PlaybackStatus.Stopped)) := by
  refine ⟨fun h => ?_, fun h1 h2 => ?_, fun h1 h2 h3 => ?_, fun h1 h2 h3 => ?_⟩
  · simp [Player.playback_status, Player.current_session, h]
  · simp [Player.playback_status, Player.current_session, h1, h2]
  · simp [Player.playback_status, Player.current_session, h1, h2, h3]
  · simp only [Player.playback_status, Player.current_session, h1, h2, h3, mapErr_ok,
      except_bind_ok, except_pure]
    split
    · exact Or.inl rfl
    · split
      · exact Or.inr (Or.inl rfl)
      · exact Or.inr (Or.inr rfl)

/-- Claim C2, witness: the amended behavior at concrete players covering
all four cases. -/
theorem playback_status_error_behavior_witness :
    Player.playback_status noSessionPlayer = Except.ok PlaybackStatus.Stopped ∧
    Player.playback_status (playerWith badPlaybackInfoSession)
      = Except.error Err.windows ∧
    Player.playback_status (playerWith badStatusSession)
      = Except.error Err.windows ∧
    (Player.playback_status samplePlayer = Except.ok PlaybackStatus.Playing ∨
     Player.playback_status samplePlayer = Except.ok PlaybackStatus.Paused ∨
     Player.playback_status samplePlayer = Except.ok PlaybackStatus.Stopped) := by
  refine ⟨?_, ?_, ?_, ?_⟩
  · exact (playback_status_error_behavior noSessionPlayer sampleSession
      { PlaybackStatus := .ok ⟨4⟩ } ⟨4⟩ sampleWinErr).1 rfl
  · exact (playback_status_error_behavior (playerWith badPlaybackInfoSession)
      badPlaybackInfoSession { PlaybackStatus := .ok ⟨4⟩ } ⟨4⟩ sampleWinErr).2.1 rfl rfl
  · exact (playback_status_error_behavior (playerWith badStatusSession)
      badStatusSession { PlaybackStatus := .error sampleWinErr } ⟨4⟩ sampleWinErr).2.2.1
      rfl rfl rfl
  · exact (playback_status_error_behavior samplePlayer sampleSession
      { PlaybackStatus := .ok ⟨4⟩ } ⟨4⟩ sampleWinErr).2.2.2 rfl rfl rfl

/-- Claim C3 (confirmed): `playback_status()` returns `Stopped` without
error whenever no current session exists; when a session exists and its
native status is readable, native `Playing` maps to `Playing`, native
`Paused` maps to `Paused`, and every other native value maps to
`Stopped`. -/
theorem playback_status_mapping (p : Player)
    (s : GlobalSystemMediaTransportControlsSession)
    (pb : GlobalSystemMediaTransportControlsSessionPlaybackInfo)
    (st : GlobalSystemMediaTransportControlsSessionPlaybackStatus) (e : WinErr) :
    (p.session_manager.GetCurrentSession = Except.error e →
      p.playback_status = Except.ok PlaybackStatus.Stopped) ∧
    (p.session_manager.GetCurrentSession = Except.ok s →
      s.GetPlaybackInfo = Except.ok pb → pb.PlaybackStatus = Except.ok st →
      (st = GlobalSystemMediaTransportControlsSessionPlaybackStatus.Playing →
        p.playback_status = Except.ok PlaybackStatus.Playing) ∧
      (st = GlobalSystemMediaTransportControlsSessionPlaybackStatus.Paused →
        p.playback_status = Except.ok PlaybackStatus.Paused) ∧
      (st ≠ GlobalSystemMediaTransportControlsSessionPlaybackStatus.Playing →
        st ≠ GlobalSystemMediaTransportControlsSessionPlaybackStatus.Paused →
        p.playback_status = Except.ok PlaybackStatus.Stopped)) := by
  refine ⟨fun h => ?_, fun h1 h2 h3 => ⟨fun hP => ?_, fun hQ => ?_, fun hP hQ => ?_⟩⟩
  · simp [Player.playback_status, Player.current_session, h]
  · simp only [Player.playback_status, Player.current_session, h1, h2, h3, mapErr_ok,
      except_bind_ok, except_pure]
    rw [if_pos hP]
  · have hP : st ≠ GlobalSystemMediaTransportControlsSessionPlaybackStatus.Playing := by
      rw [hQ]; decide
    simp only [Player.playback_status, Player.current_session, h1, h2, h3, mapErr_ok,
      except_bind_ok, except_pure]
    rw [if_neg hP, if_pos hQ]
  · simp only [Player.playback_status, Player.current_session, h1, h2, h3, mapErr_ok,
      except_bind_ok, except_pure]
    rw [if_neg hP, if_neg hQ]

/-- Claim C3, witness: the mapping at concrete players covering absence,
native `Playing` (4), native `Paused` (5), and the unrelated native value
`Changing` (2). -/
theorem playback_status_mapping_witness :
    Player.playback_status noSessionPlayer = Except.ok PlaybackStatus.Stopped ∧
    Player.playback_status samplePlayer = Except.ok PlaybackStatus.Playing ∧
    Player.playback_status (playerWith pausedSession)
      = Except.ok PlaybackStatus.Paused ∧
    Player.playback_status (playerWith changingSession)
      = Except.ok PlaybackStatus.Stopped := by
  refine ⟨?_, ?_, ?_, ?_⟩
  · exact (playback_status_mapping noSessionPlayer sampleSession
      { PlaybackStatus := .ok ⟨4⟩ } ⟨4⟩ sampleWinErr).1 rfl
  · exact ((playback_status_mapping samplePlayer sampleSession
      { PlaybackStatus := .ok ⟨4⟩ } ⟨4⟩ sampleWinErr).2 rfl rfl rfl).1 rfl
  · exact ((playback_status_mapping (playerWith pausedSession) pausedSession
      { PlaybackStatus := .ok ⟨5⟩ } ⟨5⟩ sampleWinErr).2 rfl rfl rfl).2.1 rfl
  · exact ((playback_status_mapping (playerWith changingSession) changingSession
      { PlaybackStatus := .ok ⟨2⟩ } ⟨2⟩ sampleWinErr).2 rfl rfl rfl).2.2
      (by decide) (by decide)

/-- Claim C4 (confirmed): `position()` returns `Ok(0)` whenever no current
session exists; when a session exists and the timeline reads succeed, it
returns the timeline position duration verbatim as a signed integer — the
duration is universally quantified, so no clamping and no validation
against `[0, length]` takes place. -/
theorem position_spec (p : Player)
    (s : GlobalSystemMediaTransportControlsSession)
    (tl : TimelineProperties) (ts : TimeSpan) (e : WinErr) :
    (p.session_manager.GetCurrentSession = Except.error e →
      p.position = Except.ok 0) ∧
    (p.session_manager.GetCurrentSession = Except.ok s →
      s.GetTimelineProperties = Except.ok tl → tl.Position = Except.ok ts →
      p.position = Except.ok ts.Duration) := by
  refine ⟨fun h => ?_, fun h1 h2 h3 => ?_⟩
  · simp [Player.position, Player.current_session, h]
  · simp [Player.position, Player.current_session, h1, h2, h3]

/-- Claim C4, witness: the no-session player reports position 0, and a
session reporting position `-7` with end time 300 has that value returned
verbatim even though it lies outside `[0, 300]`. -/
theorem position_spec_witness :
    Player.position noSessionPlayer = Except.ok 0 ∧
    Player.position (playerWith weirdPositionSession) = Except.ok (-7) := by
  refine ⟨?_, ?_⟩
  · exact (position_spec noSessionPlayer sampleSession sampleTimeline ⟨42⟩
      sampleWinErr).1 rfl
  · exact (position_spec (playerWith weirdPositionSession) weirdPositionSession
      { EndTime := .ok ⟨300⟩, Position := .ok ⟨-7⟩ } ⟨-7⟩ sampleWinErr).2 rfl rfl rfl

/-- Claim C5 (confirmed): `progress()` evaluates `metadata()`, then
`position()`, then `playback_status()`, bundles the three results into the
returned `Progress` value when all succeed, and otherwise fails with the
first failing sub-call error; the bundled fields equal the results of
calling the three operations independently on the same state. -/
theorem progress_spec (p : Player) (m : Metadata) (pos : Int)
    (st : PlaybackStatus) (e : Err) :
    (p.metadata = Except.ok m → p.position = Except.ok pos →
      p.playback_status = Except.ok st →
      p.progress = Except.ok { metadata := m, position := pos, status := st }) ∧
    (p.metadata = Except.error e → p.progress = Except.error e) ∧
    (p.metadata = Except.ok m → p.position = Except.error e →
      p.progress = Except.error e) ∧
    (p.metadata = Except.ok m → p.position = Except.ok pos →
      p.playback_status = Except.error e → p.progress = Except.error e) := by
  refine ⟨fun h1 h2 h3 => ?_, fun h1 => ?_, fun h1 h2 => ?_, fun h1 h2 h3 => ?_⟩
  · simp [Player.progress, h1, h2, h3]
  · simp [Player.progress, h1]
  · simp [Player.progress, h1, h2]
  · simp [Player.progress, h1, h2, h3]

/-- Claim C5, witness: the healthy player bundles exactly the three
independent results, and each failing sub-call position propagates its
error at a concrete player. -/
theorem progress_spec_witness :
    Player.progress samplePlayer
        = Except.ok { metadata := { title := "Song", artists := "Artist", length := 300 },
                      position := 42, status := PlaybackStatus.Playing } ∧
    Player.progress (playerWith badTimelineSession) = Except.error Err.windows ∧
    Player.progress (playerWith badPositionSession) = Except.error Err.windows ∧
    Player.progress (playerWith badPlaybackInfoSession) = Except.error Err.windows := by
  refine ⟨?_, ?_, ?_, ?_⟩
  · exact (progress_spec samplePlayer
      { title := "Song", artists := "Artist", length := 300 } 42
      PlaybackStatus.Playing Err.windows).1 rfl rfl rfl
  · exact (progress_spec (playerWith badTimelineSession) Metadata.default 0
      PlaybackStatus.Stopped Err.windows).2.1 rfl
  · exact (progress_spec (playerWith badPositionSession)
      { title := "Song", artists := "Artist", length := 300 } 0
      PlaybackStatus.Stopped Err.windows).2.2.1 rfl rfl
  · exact (progress_spec (playerWith badPlaybackInfoSession)
      { title := "Song", artists := "Artist", length := 300 } 42
      PlaybackStatus.Stopped Err.windows).2.2.2 rfl rfl rfl

/-- Claim C6 (confirmed): `name()` returns the fixed fallback string
`windows-api` both when no current session exists and when reading the
session source-app identifier fails; by its type it never surfaces an
error, and otherwise it returns the session source-app identifier. -/
theorem name_spec (p : Player)
    (s : GlobalSystemMediaTransportControlsSession) (e : WinErr) (nm : String) :
    (p.session_manager.GetCurrentSession = Except.error e →
      p.name = "windows-api") ∧
    (p.session_manager.GetCurrentSession = Except.ok s →
      s.SourceAppUserModelId = Except.error e → p.name = "windows-api") ∧
    (p.session_manager.GetCurrentSession = Except.ok s →
      s.SourceAppUserModelId = Except.ok nm → p.name = nm) := by
  refine ⟨fun h => ?_, fun h1 h2 => ?_, fun h1 h2 => ?_⟩
  · simp [Player.name, Player.current_session, h]
  · simp [Player.name, Player.current_session, h1, h2]
  · simp [Player.name, Player.current_session, h1, h2]

/-- Claim C6, witness: the fallback at a no-session player and at a
session whose identifier read fails, and the identifier itself at the
healthy player. -/
theorem name_spec_witness :
    Player.name noSessionPlayer = "windows-api" ∧
    Player.name (playerWith noAppIdSession) = "windows-api" ∧
    Player.name samplePlayer = "Spotify.exe" := by
  refine ⟨?_, ?_, ?_⟩
  · exact (name_spec noSessionPlayer sampleSession sampleWinErr "x").1 rfl
  · exact (name_spec (playerWith noAppIdSession) noAppIdSession sampleWinErr "x").2.1
      rfl rfl
  · exact (name_spec samplePlayer sampleSession sampleWinErr "Spotify.exe").2.2 rfl rfl

/-- Claim C7 (confirmed): if media-property retrieval fails while a
session is present (and the timeline length computation itself succeeds),
`metadata()` fails with exactly the propagated media-properties error
rather than returning a default `Metadata` value. -/
theorem metadata_propagates_media_error (p : Player)
    (s : GlobalSystemMediaTransportControlsSession)
    (tl : TimelineProperties) (ts : TimeSpan) (e : Err)
    (hs : p.session_manager.GetCurrentSession = Except.ok s)
    (htl : s.GetTimelineProperties = Except.ok tl)
    (hend : tl.EndTime = Except.ok ts)
    (hmp : p.media_properties = Except.error e) :
    p.metadata = Except.error e := by
  simp [Player.metadata, Player.current_session, hs, htl, hend, hmp]

/-- Claim C7, witness: a present session whose media-properties call fails
makes `metadata()` fail with that propagated error. -/
theorem metadata_propagates_media_error_witness :
    Player.metadata (playerWith badMediaPropsSession)
      = Except.error (Err.couldNotGetMediaProperties sampleWinErr) :=
  metadata_propagates_media_error (playerWith badMediaPropsSession)
    badMediaPropsSession sampleTimeline ⟨300⟩
    (Err.couldNotGetMediaProperties sampleWinErr) rfl rfl rfl rfl

/-- Claim C8 (confirmed): `stream()` returns `Ok` of the yielded-value
sequence, and every element of that infinite sequence — hence of every
prefix of it — is the tag-only value `PlayerEvent.Timer`, the only variant
the event type has. -/
theorem stream_yields_only_timer (p : Player) (n : Nat) :
    p.stream = Except.ok p.streamItems ∧ p.streamItems n = PlayerEvent.Timer :=
  ⟨rfl, rfl⟩

/-- Claim C9 (confirmed): on the default-constructed `Metadata` the
title, artists and length projections return `Ok("")`, `Ok("")` and
`Ok(0)`; on every constructed `Metadata` the three accessors are pure
projections that always return `Ok` and never fail. -/
theorem metadata_projections (m : Metadata) :
    Metadata.titleR Metadata.default = Except.ok "" ∧
    Metadata.artistsR Metadata.default = Except.ok "" ∧
    Metadata.lengthR Metadata.default = Except.ok 0 ∧
    (∃ s, m.titleR = Except.ok s) ∧
    (∃ s, m.artistsR = Except.ok s) ∧
    (∃ k, m.lengthR = Except.ok k) :=
  ⟨rfl, rfl, rfl, ⟨m.title, rfl⟩, ⟨m.artists, rfl⟩, ⟨m.length, rfl⟩⟩

/-- Claim C10 (confirmed): `metadata()` casts the native timeline
`EndTime` duration (an `i64`) to `u64` with wraparound; for every session
whose end-time duration `d` is negative (and representable as `i64`), the
reported length is `d` modulo `2^64`, which equals `d + 2^64`, is at least
`2^63` (a huge positive number), and in particular is neither `0` nor an
error. -/
theorem metadata_negative_endtime (p : Player)
    (s : GlobalSystemMediaTransportControlsSession)
    (tl : TimelineProperties) (ts : TimeSpan)
    (mp : GlobalSystemMediaTransportControlsSessionMediaProperties)
    (t a : String)
    (hs : p.session_manager.GetCurrentSession = Except.ok s)
    (htl : s.GetTimelineProperties = Except.ok tl)
    (hend : tl.EndTime = Except.ok ts)
    (hmp : s.TryGetMediaPropertiesAsync = Except.ok (Except.ok mp))
    (ht : mp.Title = Except.ok t) (ha : mp.Artist = Except.ok a)
    (hlo : -(2 ^ 63) ≤ ts.Duration) (hneg : ts.Duration < 0) :
    p.metadata
        = Except.ok { title := t, artists := a, length := i64_as_u64 ts.Duration } ∧
    (i64_as_u64 ts.Duration : Int) = ts.Duration + 2 ^ 64 ∧
    2 ^ 63 ≤ i64_as_u64 ts.Duration ∧ i64_as_u64 ts.Duration ≠ 0 := by
  have e64 : (2 : Int) ^ 64 = 18446744073709551616 := by norm_num
  have e63 : (2 : Int) ^ 63 = 9223372036854775808 := by norm_num
  have e63n : (2 : Nat) ^ 63 = 9223372036854775808 := by norm_num
  refine ⟨?_, ?_, ?_, ?_⟩
  · simp [Player.metadata, Player.media_properties, Player.current_session,
      hs, htl, hend, hmp, ht, ha]
  · rw [i64_as_u64, e64]
    rw [e63] at hlo
    omega
  · rw [i64_as_u64, e64, e63n]
    rw [e63] at hlo
    omega
  · rw [i64_as_u64, e64]
    rw [e63] at hlo
    omega

/-- Claim C10, witness: a session whose end-time duration is `-1` makes
`metadata()` succeed with the wrapped length `2^64 - 1`. -/
theorem metadata_negative_endtime_witness :
    Player.metadata (playerWith negativeEndTimeSession)
        = Except.ok { title := "Song", artists := "Artist",
                      length := i64_as_u64 (-1) } ∧
    (i64_as_u64 (-1) : Int) = -1 + 2 ^ 64 ∧
    2 ^ 63 ≤ i64_as_u64 (-1) ∧ i64_as_u64 (-1) ≠ 0 :=
  metadata_negative_endtime (playerWith negativeEndTimeSession)
    negativeEndTimeSession { EndTime := .ok ⟨-1⟩, Position := .ok ⟨42⟩ } ⟨-1⟩
    sampleMediaProps "Song" "Artist" rfl rfl rfl rfl rfl rfl
    (by decide) (by decide)

end ApexWindows
